import Mathlib

/-!
Verification of the CareerGap Strategy Decision & Lifecycle Engine.

Shallow embedding of the Python sources under `resume_parser/`:
`agent_loop.py` (state machine, outcome handling, re-evaluation),
`strategy_selector.py` (strategy routing and confidence),
`bottleneck_analyzer.py` (dominant-issue selection) and
`roadmap_generator.py` (eligibility gate).

Python floats are modelled as rationals; `round(x, 2)` is modelled by
`roundq2`, rounding to an integer number of hundredths.  Every numeric
constant of the engine is an exact multiple of 1/100, so the engine only
ever rounds values where all rounding modes agree.
-/

namespace CareerGap

/-- Strategy lifecycle states (`StrategyState` in `agent_loop.py`). -/
inductive StrategyState where
  | explore
  | validate
  | execute
  | reconsider
deriving DecidableEq, Repr, Fintype

/-- The five bottleneck categories rated by the diagnoser
(`bottleneck_analyzer.py`). -/
inductive Category where
  | experience_strength
  | evidence_depth
  | outcome_visibility
  | positioning
  | skill_alignment
deriving DecidableEq, Repr, Fintype

/-- Rendering of a category as the string key used in the Python dicts. -/
def Category.name : Category → String
  | .experience_strength => "experience_strength"
  | .evidence_depth => "evidence_depth"
  | .outcome_visibility => "outcome_visibility"
  | .positioning => "positioning"
  | .skill_alignment => "skill_alignment"

/-- A bottleneck severity rating: each category is rated
"strong", "weak" or "missing". -/
inductive Rating where
  | strong
  | weak
  | missing
deriving DecidableEq, Repr, Fintype

/-- The iteration order of the `bottlenecks` dict built by
`rate_bottlenecks` in `bottleneck_analyzer.py` (all five keys present). -/
def categories : List Category :=
  [.positioning, .evidence_depth, .experience_strength, .skill_alignment,
   .outcome_visibility]

/-- Boolean section signals of the evidence bundle
(`section_signals` in the stage-1 document); absent keys read as `false`
via `dict.get(key, False)`. -/
structure SectionSignals where
  has_internship : Bool := false
  has_projects : Bool := false
  has_metrics : Bool := false
  has_deployment : Bool := false
deriving DecidableEq, Repr, Fintype

/-- The part of the optional profile-signal document read by the state
machine: `profile_signals["signals"]["resume_positioning_issue"]["triggered"]`,
with every absent key defaulting to `false`. -/
structure ProfileSignals where
  resume_positioning_issue_triggered : Bool := false
deriving DecidableEq, Repr

/-- The part of the stage-1 evidence document consumed by the decision
engine itself.  `section_signals = none` models a stage-1 document whose
`section_signals` key is absent, `None`, or the empty dict (all of which
are falsy in the Python truthiness tests).  The skill lists and the
`enhanced_snapshot` key are consumed only by the out-of-scope evidence
and profile-signal layers; the report and profile signals they produce
are passed to the engine explicitly below. -/
structure Evidence where
  section_signals : Option SectionSignals := none
deriving DecidableEq, Repr

/-- Stage-2 output (`analyze_bottlenecks`): implied role, the full
five-category rating, the dominant issue and its justification.  The
diagnoser always rates all five categories, so `bottlenecks` is a total
function. -/
structure Report where
  implied_role : String := "Software Engineer"
  bottlenecks : Category → Rating
  dominant_issue : Option Category := none
  justification : String := ""

/-- Stage-3 output (`select_strategy_and_action`). -/
structure StrategyDecision where
  strategy : String
  action : String
  confidence : ℚ
deriving DecidableEq, Repr

/-- `StrategyRecord` dataclass of `agent_loop.py`. -/
structure StrategyRecord where
  strategy : String
  initial_confidence : ℚ
  current_confidence : ℚ
  outcomes : List String := []
  failed : Bool := false
  strategy_state : StrategyState := .explore
deriving DecidableEq, Repr

/-- `AgentSession` dataclass of `agent_loop.py`. -/
structure AgentSession where
  stage1_evidence : Evidence
  stage2_bottleneck : Report
  stage3_strategy : StrategyDecision
  current_strategy : Option StrategyRecord := none
  strategy_history : List StrategyRecord := []
  loop_iteration : Nat := 0
  explanation_log : List String := []

/-- Python's `round(x, 2)`: round to a whole number of hundredths.
Mathlib's `round` rounds half up where Python rounds half to even, but
the engine only rounds exact hundredths, where both agree. -/
def roundq2 (x : ℚ) : ℚ := ((round (100 * x) : ℤ) : ℚ) / 100

/-! ### Stage 3: strategy selector (`strategy_selector.py`) -/

/-- `BASE_CONFIDENCE` table of `strategy_selector.py`, with the `.get`
default of 0.50. -/
def BASE_CONFIDENCE (strategy : String) : ℚ :=
  if strategy = "ResumeOptimization" then 70/100
  else if strategy = "SkillGapPatch" then 55/100
  else if strategy = "RoleShift" then 45/100
  else if strategy = "HoldPosition" then 85/100
  else 50/100

/-- `CONFIDENCE_ADJUSTMENTS` table of `strategy_selector.py` (every
severity key is present, so the `.get` default 0.0 is never used). -/
def CONFIDENCE_ADJUSTMENTS : Rating → ℚ
  | .strong => 10/100
  | .weak => 0
  | .missing => -(10/100)

/-- `calculate_confidence` of `strategy_selector.py`.  `bottlenecks` is
the stage-2 rating dict (all five category keys present). -/
def calculate_confidence (strategy : String) (bottlenecks : Category → Rating)
    (dominant_issue : Option Category) : ℚ :=
  let base := BASE_CONFIDENCE strategy
  match dominant_issue with
  | none => min (90/100) (base + 5/100)
  | some dom =>
    let severity := bottlenecks dom
    let adjustment := CONFIDENCE_ADJUSTMENTS severity
    let other_issues := (categories.filter (fun k =>
      k ≠ dom ∧ (bottlenecks k = .weak ∨ bottlenecks k = .missing))).length
    let other_penalty := (other_issues : ℚ) * (5/100)
    let confidence := base + adjustment - other_penalty
    roundq2 (max (20/100) (min (95/100) confidence))

/-- `ACTION_TEMPLATES` of `strategy_selector.py`: the nested dict keyed
by `(strategy, dominant_issue)` and then by severity; `none` is a lookup
miss. -/
def ACTION_TEMPLATES (strategy : String) (issue : Option Category)
    (severity : Rating) : Option String :=
  match strategy, issue, severity with
  | "ResumeOptimization", some .evidence_depth, .weak =>
    some "Rewrite the primary project description to include problem statement, approach, tools used, and quantifiable outcome."
  | "ResumeOptimization", some .evidence_depth, .missing =>
    some "Add a Projects section with one completed project including problem, solution, and measurable result."
  | "ResumeOptimization", some .positioning, .weak =>
    some "Add context to top 3 listed skills by linking each to a specific project or experience where it was applied."
  | "ResumeOptimization", some .positioning, .missing =>
    some "Create skill-evidence links by adding brief descriptions of how each skill was used in projects or coursework."
  | "ResumeOptimization", some .outcome_visibility, .weak =>
    some "Add metrics to the primary project or experience entry (e.g., performance improvement %, users served, data processed)."
  | "ResumeOptimization", some .outcome_visibility, .missing =>
    some "Quantify one achievement in the experience or project section with a specific number or percentage."
  | "SkillGapPatch", some .skill_alignment, .weak =>
    some "Identify the top missing primary skill for the target role and add it through a focused micro-project or certification."
  | "SkillGapPatch", some .skill_alignment, .missing =>
    some "Complete one foundational skill course for the target role and add the credential to the resume."
  | "RoleShift", some .experience_strength, .weak =>
    some "Reframe existing project work as professional experience by emphasizing deliverables and stakeholder impact."
  | "RoleShift", some .experience_strength, .missing =>
    some "Pivot target role to one that values project-based evidence over formal work experience."
  | "HoldPosition", none, .strong =>
    some "Maintain current resume positioning and proceed to application phase."
  | _, _, _ => none

/-- `FALLBACK_ACTIONS` table of `strategy_selector.py` (distinct from
the table of the same name in `agent_loop.py`), with the `.get` default
text. -/
def FALLBACK_ACTIONS_stage3 (strategy : String) : String :=
  if strategy = "ResumeOptimization" then
    "Restructure the resume to highlight evidence of applied skills in project and experience sections."
  else if strategy = "SkillGapPatch" then
    "Add one in-demand skill for the target role through a verifiable project or credential."
  else if strategy = "RoleShift" then
    "Adjust target role to better align with current evidence profile."
  else if strategy = "HoldPosition" then
    "Proceed with current resume positioning."
  else "Review and optimize resume content."

/-- `get_action` of `strategy_selector.py`: exact severity template,
then the "weak" template, then the strategy-level fallback. -/
def get_action (strategy : String) (dominant_issue : Option Category)
    (bottlenecks : Category → Rating) : String :=
  match dominant_issue with
  | none =>
    (ACTION_TEMPLATES "HoldPosition" none .strong).getD
      (FALLBACK_ACTIONS_stage3 "HoldPosition")
  | some dom =>
    let severity := bottlenecks dom
    match ACTION_TEMPLATES strategy (some dom) severity with
    | some action => action
    | none =>
      match ACTION_TEMPLATES strategy (some dom) .weak with
      | some action => action
      | none => FALLBACK_ACTIONS_stage3 strategy

/-- `select_strategy` of `strategy_selector.py`.  `section_signals =
none` models the Python branch where the `section_signals` argument is
`None` or an empty (falsy) dict, skipping the signal check. -/
def select_strategy (dominant_issue : Option Category)
    (bottlenecks : Category → Rating)
    (section_signals : Option SectionSignals) : String :=
  match dominant_issue with
  | none => "HoldPosition"
  | some .evidence_depth => "ResumeOptimization"
  | some .positioning => "ResumeOptimization"
  | some .outcome_visibility => "ResumeOptimization"
  | some .skill_alignment => "SkillGapPatch"
  | some .experience_strength =>
    let by_severity :=
      if bottlenecks .experience_strength = .missing then "RoleShift"
      else "ResumeOptimization"
    match section_signals with
    | some signals =>
      if !signals.has_internship && !signals.has_projects then "RoleShift"
      else by_severity
    | none => by_severity

/-- `select_strategy_and_action` of `strategy_selector.py` (stage 3). -/
def select_strategy_and_action (stage2_output : Report)
    (section_signals : Option SectionSignals) : StrategyDecision :=
  let strategy := select_strategy stage2_output.dominant_issue
    stage2_output.bottlenecks section_signals
  let action := get_action strategy stage2_output.dominant_issue
    stage2_output.bottlenecks
  let confidence := calculate_confidence strategy stage2_output.bottlenecks
    stage2_output.dominant_issue
  { strategy := strategy, action := action, confidence := confidence }

/-! ### Stage 2: dominant-issue selection (`bottleneck_analyzer.py`) -/

/-- `BOTTLENECK_PRIORITY` of `bottleneck_analyzer.py`: priority order for
dominant-issue selection, most critical first. -/
def BOTTLENECK_PRIORITY : List Category :=
  [.experience_strength, .evidence_depth, .outcome_visibility,
   .positioning, .skill_alignment]

/-- `JUSTIFICATION_TEMPLATES` of `bottleneck_analyzer.py` (only the
"missing"/"weak" keys exist; `.strong` is a lookup miss returning the
`.get` default of the empty template). -/
def JUSTIFICATION_TEMPLATES (dominant : Category) (severity : Rating) : String :=
  match dominant, severity with
  | .experience_strength, .missing =>
    "No internship or work experience evidence found in resume signals."
  | .experience_strength, .weak =>
    "Internship exists but lacks production/deployment indicators."
  | .evidence_depth, .missing =>
    "Resume lacks both project and internship sections."
  | .evidence_depth, .weak =>
    "Has {present} but missing {missing}; no quantifiable metrics found."
  | .outcome_visibility, .missing =>
    "No measurable outcomes or project evidence detected."
  | .outcome_visibility, .weak =>
    "Projects present but lack quantifiable metrics or results."
  | .positioning, .missing =>
    "Skills are listed without contextual evidence of application."
  | .positioning, .weak =>
    "Most skills lack diverse evidence sources (project, internship, coursework)."
  | .skill_alignment, .missing =>
    "Minimal overlap between skills and target role requirements."
  | .skill_alignment, .weak =>
    "Some primary skills for {role} present, but notable gaps remain."
  | _, .strong => ""

/-- The `template.format(...)` step of `select_dominant_issue` for the
`evidence_depth` dominant issue: fill `{present}`/`{missing}` from the
section signals. -/
def fill_evidence_depth_template (signals : SectionSignals) : String :=
  let present :=
    (if signals.has_projects then ["projects"] else []) ++
    (if signals.has_internship then ["internship"] else [])
  let missing_items :=
    (if signals.has_projects then [] else ["projects"]) ++
    (if signals.has_internship then [] else ["internship"])
  let present_str := if present.isEmpty then "neither"
    else String.intercalate ", " present
  let missing_str := if missing_items.isEmpty then "none"
    else String.intercalate ", " missing_items
  "Has " ++ present_str ++ " but missing " ++ missing_str ++
    "; no quantifiable metrics found."

/-- The `template.format(role=...)` step for the `skill_alignment`
dominant issue. -/
def fill_skill_alignment_template (implied_role : String) : String :=
  "Some primary skills for " ++ implied_role ++ " present, but notable gaps remain."

/-- `select_dominant_issue` of `bottleneck_analyzer.py`: first category
rated missing in priority order, else first rated weak, else none;
returns the pair (dominant issue, justification). -/
def select_dominant_issue (bottlenecks : Category → Rating)
    (section_signals : SectionSignals) (implied_role : String) :
    Option Category × String :=
  let missing := BOTTLENECK_PRIORITY.filter (fun b => bottlenecks b = .missing)
  let weak := BOTTLENECK_PRIORITY.filter (fun b => bottlenecks b = .weak)
  match missing, weak with
  | [], [] => (none, "All bottleneck categories are strong.")
  | dominant :: _, _ =>
    (some dominant, fill_template dominant .missing section_signals implied_role)
  | [], dominant :: _ =>
    (some dominant, fill_template dominant .weak section_signals implied_role)
where
  /-- The placeholder-filling tail of `select_dominant_issue`. -/
  fill_template (dominant : Category) (severity : Rating)
      (signals : SectionSignals) (role : String) : String :=
    let template := JUSTIFICATION_TEMPLATES dominant severity
    match dominant with
    | .evidence_depth =>
      if severity = .weak then fill_evidence_depth_template signals
      else template
    | .skill_alignment =>
      if severity = .weak then fill_skill_alignment_template role
      else template
    | _ => template

/-! ### Agent loop (`agent_loop.py`) -/

/-- The serialized value of a lifecycle state (the `str` value of the
Python `StrategyState` enum). -/
def StrategyState.value : StrategyState → String
  | .explore => "explore"
  | .validate => "validate"
  | .execute => "execute"
  | .reconsider => "reconsider"

/-- `CONFIDENCE_DELTA` table of `agent_loop.py`, with the `.get`
default of 0.0 for unknown outcome tags. -/
def CONFIDENCE_DELTA (outcome : String) : ℚ :=
  if outcome = "interview" then 15/100
  else if outcome = "rejected" then -(10/100)
  else if outcome = "no_response" then -(8/100)
  else 0

/-- `FAILURE_THRESHOLD` of `agent_loop.py`. -/
def FAILURE_THRESHOLD : ℚ := 30/100

/-- `NEGATIVE_OUTCOME_LIMIT` of `agent_loop.py`. -/
def NEGATIVE_OUTCOME_LIMIT : Nat := 3

/-- `update_confidence` of `agent_loop.py`: apply the outcome delta,
clamp to [0.10, 0.95] and round to 2 decimals. -/
def update_confidence (current : ℚ) (outcome : String) : ℚ :=
  let delta := CONFIDENCE_DELTA outcome
  let new_confidence := current + delta
  roundq2 (max (10/100) (min (95/100) new_confidence))

/-- The interview count over a record's outcome list. -/
def interview_count (outcomes : List String) : Nat :=
  (outcomes.filter (fun o => o = "interview")).length

/-- The count of negative (`rejected` or `no_response`) outcomes. -/
def negative_count (outcomes : List String) : Nat :=
  (outcomes.filter (fun o => o = "rejected" ∨ o = "no_response")).length

/-- `should_invalidate` of `agent_loop.py`: the legacy failure check. -/
def should_invalidate (record : StrategyRecord) : Bool :=
  if record.failed then true
  else if record.current_confidence < FAILURE_THRESHOLD then true
  else if negative_count record.outcomes ≥ NEGATIVE_OUTCOME_LIMIT then true
  else false

/-- `evaluate_strategy_state` of `agent_loop.py`: the core lifecycle
state machine.  Log messages containing numbers render them with
`toString`, abstracting Python's float formatting. -/
def evaluate_strategy_state (session : AgentSession)
    (profile_signals : Option ProfileSignals) : AgentSession :=
  match session.current_strategy with
  | none => session
  | some record =>
    let current_state := record.strategy_state
    let interviews := interview_count record.outcomes
    let negatives := negative_count record.outcomes
    let has_positioning_issue :=
      match profile_signals with
      | some ps => ps.resume_positioning_issue_triggered
      | none => false
    let step : StrategyState × String :=
      if record.current_confidence < FAILURE_THRESHOLD then
        (.reconsider, "confidence dropped to " ++
          toString record.current_confidence ++ " (below threshold " ++
          toString FAILURE_THRESHOLD ++ ")")
      else if negatives ≥ NEGATIVE_OUTCOME_LIMIT then
        (.reconsider, toString negatives ++ " negative outcomes (limit: " ++
          toString NEGATIVE_OUTCOME_LIMIT ++ ")")
      else if current_state = .explore then
        if interviews ≥ 1 ∧ record.current_confidence ≥ 55/100 then
          (.validate, toString interviews ++ " interview(s) received, confidence " ++
            toString record.current_confidence ++ " ≥ 0.55")
        else (current_state, "")
      else if current_state = .validate then
        if interviews ≥ 2 ∧ record.current_confidence ≥ 65/100 ∧
            has_positioning_issue = false then
          (.execute, toString interviews ++ " interviews, confidence " ++
            toString record.current_confidence ++ " ≥ 0.65, no positioning issues")
        else if has_positioning_issue = true ∧ interviews < 2 then
          (.explore, "resume positioning issue detected")
        else (current_state, "")
      else (current_state, "")
    let new_state := step.1
    if new_state ≠ current_state then
      { session with
        current_strategy := some { record with
          strategy_state := new_state,
          failed := if new_state = .reconsider then true else record.failed },
        explanation_log := session.explanation_log ++
          ["State transition: " ++ current_state.value ++ " → " ++
           new_state.value ++ ". Reason: " ++ step.2] }
    else session

/-- `record_outcome` of `agent_loop.py`.  Python raises `ValueError`
before touching the session, which the embedding models by returning
`Except.error` with the exception message: on the error path no field of
the session value has been rebuilt. -/
def record_outcome (session : AgentSession) (outcome : String) :
    Except String AgentSession :=
  if ¬(outcome = "no_response" ∨ outcome = "rejected" ∨ outcome = "interview") then
    .error ("Invalid outcome: " ++ outcome ++
      ". Must be one of: no_response, rejected, interview")
  else
    match session.current_strategy with
    | none => .error "No active strategy to record outcome for"
    | some record0 =>
      let record1 := { record0 with outcomes := record0.outcomes ++ [outcome] }
      let record := { record1 with
        current_confidence := update_confidence record1.current_confidence outcome }
      if should_invalidate record then
        .ok { session with
          current_strategy := some { record with failed := true },
          explanation_log := session.explanation_log ++
            ["Strategy '" ++ record.strategy ++ "' marked as failed after " ++
             toString record.outcomes.length ++ " outcome(s). Confidence dropped to " ++
             toString record.current_confidence ++ "."] }
      else
        .ok { session with
          current_strategy := some record,
          explanation_log := session.explanation_log ++
            ["Recorded '" ++ outcome ++ "' for strategy '" ++ record.strategy ++
             "'. Confidence: " ++ toString record.current_confidence ++
             ". State: " ++ record.strategy_state.value ++ "."] }

/-- `STRATEGY_PRIORITY` of `_select_fallback_strategy` in
`agent_loop.py`. -/
def STRATEGY_PRIORITY : List String :=
  ["ResumeOptimization", "SkillGapPatch", "RoleShift", "HoldPosition"]

/-- `FALLBACK_ACTIONS` table of `_select_fallback_strategy` in
`agent_loop.py` (distinct from the selector's table of the same name).
It is only ever indexed by the four priority names. -/
def FALLBACK_ACTIONS_loop (strategy : String) : String :=
  if strategy = "ResumeOptimization" then
    "Restructure the resume to highlight evidence of applied skills."
  else if strategy = "SkillGapPatch" then
    "Add one in-demand skill through a verifiable project or credential."
  else if strategy = "RoleShift" then
    "Adjust target role to better align with current evidence profile."
  else "Maintain current positioning and continue application process."

/-- `FALLBACK_CONFIDENCE` table of `_select_fallback_strategy` in
`agent_loop.py`.  It is only ever indexed by the four priority names. -/
def FALLBACK_CONFIDENCE (strategy : String) : ℚ :=
  if strategy = "ResumeOptimization" then 55/100
  else if strategy = "SkillGapPatch" then 45/100
  else if strategy = "RoleShift" then 35/100
  else 70/100

/-- `_select_fallback_strategy` of `agent_loop.py`: the first strategy
of the priority order not in the failed set; if every one has failed,
HoldPosition with confidence 0.25 and the exhaustion action.  The two
leading parameters are unused in the Python body as well. -/
def select_fallback_strategy (_stage2_output : Report)
    (failed_strategies : List String)
    (_section_signals : Option SectionSignals) : StrategyDecision :=
  match STRATEGY_PRIORITY.find? (fun s => ¬(s ∈ failed_strategies)) with
  | some strategy =>
    { strategy := strategy
      action := FALLBACK_ACTIONS_loop strategy
      confidence := FALLBACK_CONFIDENCE strategy }
  | none =>
    { strategy := "HoldPosition"
      action := "All strategies exhausted. Recommend manual review of career positioning."
      confidence := 25/100 }

/-- `re_evaluate_strategy` of `agent_loop.py`.  The parameter
`new_stage2` stands for `analyze_bottlenecks(session.stage1_evidence)`,
the deterministic stage-2 report recomputed by the diagnoser over the
session's evidence; every theorem below quantifies over it, so it covers
whatever report the diagnoser produces. -/
def re_evaluate_strategy (new_stage2 : Report) (session : AgentSession) :
    AgentSession :=
  match session.current_strategy with
  | none => session
  | some record =>
    if record.failed = false then session
    else
      let history := session.strategy_history ++ [record]
      let failed_strategy := record.strategy
      let failed_strategies :=
        (history.filter (fun s => s.failed)).map (fun s => s.strategy)
      let section_signals := session.stage1_evidence.section_signals
      let fresh := select_strategy_and_action new_stage2 section_signals
      let new_stage3 :=
        if fresh.strategy ∈ failed_strategies then
          select_fallback_strategy new_stage2 failed_strategies section_signals
        else fresh
      { session with
        stage2_bottleneck := new_stage2
        stage3_strategy := new_stage3
        strategy_history := history
        loop_iteration := session.loop_iteration + 1
        current_strategy := some {
          strategy := new_stage3.strategy
          initial_confidence := new_stage3.confidence
          current_confidence := new_stage3.confidence
          outcomes := []
          failed := false
          strategy_state := .explore }
        explanation_log := session.explanation_log ++
          ["Re-evaluated strategy. Changed from '" ++ failed_strategy ++
           "' to '" ++ new_stage3.strategy ++ "'. New confidence: " ++
           toString new_stage3.confidence ++ ". State: " ++
           StrategyState.explore.value ++ "."] }

/-- `generate_short_explanation` of `agent_loop.py`.  When the stage-2
report has no dominant issue the Python `dict.get` finds the key
present with value `None` and renders it as `"None"`. -/
def generate_short_explanation (session : AgentSession) : String :=
  match session.current_strategy with
  | none => "No active strategy."
  | some current =>
    let dominant_issue :=
      match session.stage2_bottleneck.dominant_issue with
      | some c => c.name
      | none => "None"
    if session.loop_iteration = 0 then
      "Selected " ++ current.strategy ++ " due to " ++ dominant_issue ++
        ". Confidence: " ++ toString current.current_confidence ++
        ". State: " ++ current.strategy_state.value ++ "."
    else
      let prev_strategy :=
        match session.strategy_history.getLast? with
        | some prev => prev.strategy
        | none => "previous"
      "Shifted from " ++ prev_strategy ++ " to " ++ current.strategy ++
        " after " ++ toString session.loop_iteration ++
        " re-evaluation(s). Confidence: " ++
        toString current.current_confidence ++ ". State: " ++
        current.strategy_state.value ++ "."

/-- The result dict of `process_outcome` in `agent_loop.py`. -/
structure ProcessResult where
  session : AgentSession
  strategy_changed : Bool
  current_strategy : StrategyDecision
  explanation : String
  strategy_state : Option StrategyState
  profile_signals : Option ProfileSignals

/-- `process_outcome` of `agent_loop.py`: one full feedback step.
`profile_signals` stands for the output of the optional out-of-scope
profile-signal layer (`extract_profile_signals`), and `new_stage2` for
the stage-2 report recomputed during re-evaluation, as in
`re_evaluate_strategy`. -/
def process_outcome (session0 : AgentSession) (outcome : String)
    (profile_signals : Option ProfileSignals) (new_stage2 : Report) :
    Except String ProcessResult :=
  match record_outcome session0 outcome with
  | .error e => .error e
  | .ok session1 =>
    let session2 := evaluate_strategy_state session1 profile_signals
    let stepped : AgentSession × Bool :=
      match session2.current_strategy with
      | some record =>
        if record.strategy_state = .reconsider then
          let old_strategy := record.strategy
          let session3 := re_evaluate_strategy new_stage2 session2
          let changed :=
            match session3.current_strategy with
            | some r => r.strategy ≠ old_strategy
            | none => False
          (session3, changed)
        else (session2, false)
      | none => (session2, false)
    .ok {
      session := stepped.1
      strategy_changed := stepped.2
      current_strategy := stepped.1.stage3_strategy
      explanation := generate_short_explanation stepped.1
      strategy_state := stepped.1.current_strategy.map
        (fun r => r.strategy_state)
      profile_signals := profile_signals }

/-! ### Roadmap eligibility gate (`roadmap_generator.py`) -/

/-- The dict returned by `check_roadmap_eligibility`: the
`recommendation` key is absent in some branches, modelled by the empty
default. -/
structure EligibilityResult where
  eligible : Bool
  reason : String
  current_state : Option StrategyState
  recommendation : String := ""
deriving DecidableEq, Repr

/-- `check_roadmap_eligibility` of `roadmap_generator.py`: a pure
predicate over the session value; the session is only read.  The typed
embedding always receives a well-formed session, so the Python branches
for a falsy session document and for an unknown state string cannot
arise; the state field of a record is always one of the four states. -/
def check_roadmap_eligibility (session : AgentSession) : EligibilityResult :=
  match session.current_strategy with
  | none =>
    { eligible := false
      reason := "No active strategy found"
      current_state := none }
  | some current =>
    let strategy_name := current.strategy
    let confidence := current.current_confidence
    match current.strategy_state with
    | .execute =>
      { eligible := true
        reason := "Strategy '" ++ strategy_name ++
          "' in EXECUTE state (confidence: " ++ toString confidence ++ ")"
        current_state := some .execute }
    | .explore =>
      { eligible := false
        reason := "Strategy '" ++ strategy_name ++
          "' is in EXPLORE state. Need at least 1 interview to validate before generating roadmap."
        current_state := some .explore
        recommendation := "Continue applying to roles and track outcomes. Roadmap will unlock after validation." }
    | .validate =>
      { eligible := false
        reason := "Strategy '" ++ strategy_name ++
          "' is in VALIDATE state. Need 2+ interviews and confidence ≥ 0.65 to execute."
        current_state := some .validate
        recommendation := "Strategy is showing promise! Get more interviews to lock it in for execution." }
    | .reconsider =>
      { eligible := false
        reason := "Strategy '" ++ strategy_name ++
          "' is in RECONSIDER state (failed). Cannot generate roadmap for failed strategy."
        current_state := some .reconsider
        recommendation := "System is re-evaluating strategy. Wait for new strategy selection." }

/-! ### Spec-side definitions and concrete instances used by the
verification -/

/-- The condition under which claim C4 asserts that an
`experience_strength` dominant issue routes to RoleShift, for present
section signals: (no internship and no project evidence) or (severity
missing while at least one of internship/project evidence is absent). -/
def roleShift_condition_per_claim (b : Category → Rating)
    (s : SectionSignals) : Prop :=
  (s.has_internship = false ∧ s.has_projects = false) ∨
  (b Category.experience_strength = Rating.missing ∧
    (s.has_internship = false ∨ s.has_projects = false))

/-- The count of "other non-strong categories" as worded by the spec
(section 4.2); the code counts ratings in {weak, missing} instead. -/
def other_non_strong_count (b : Category → Rating) (dom : Category) : Nat :=
  (categories.filter (fun k => k ≠ dom ∧ b k ≠ Rating.strong)).length

/-- Second definition of the selector confidence following the spec's
words, to be compared with `calculate_confidence`. -/
def confidence_per_spec (strategy : String) (b : Category → Rating)
    (dom : Option Category) : ℚ :=
  match dom with
  | none => min (90/100) (BASE_CONFIDENCE strategy + 5/100)
  | some c =>
    roundq2 (max (20/100) (min (95/100)
      (BASE_CONFIDENCE strategy + CONFIDENCE_ADJUSTMENTS (b c) -
        (other_non_strong_count b c : ℚ) * (5/100))))

/-- A report with every category strong, used as a concrete stage-2
value. -/
def all_strong_report : Report := { bottlenecks := fun _ => Rating.strong }

/-- A strategy record in EXECUTE as reached by the documented flow:
initial confidence 0.70, two interviews (0.85 then clamped 0.95,
entering VALIDATE then EXECUTE), then three rejections
(0.85, 0.75, 0.65). -/
def c1_record : StrategyRecord :=
  { strategy := "ResumeOptimization"
    initial_confidence := 70/100
    current_confidence := 65/100
    outcomes := ["interview", "interview", "rejected", "rejected", "rejected"]
    failed := false
    strategy_state := .execute }

/-- A session whose current strategy is the EXECUTE record above. -/
def c1_session : AgentSession :=
  { stage1_evidence := {}
    stage2_bottleneck := all_strong_report
    stage3_strategy :=
      { strategy := "ResumeOptimization", action := "", confidence := 70/100 }
    current_strategy := some c1_record }

/-- A failed record carrying a given strategy name. -/
def failed_record (name : String) : StrategyRecord :=
  { strategy := name
    initial_confidence := 1/2
    current_confidence := 1/5
    outcomes := ["rejected", "rejected", "rejected"]
    failed := true
    strategy_state := .reconsider }

/-- A session in which every one of the four strategies has already
been marked failed (three in the archive, one current). -/
def c6_session : AgentSession :=
  { stage1_evidence := {}
    stage2_bottleneck := all_strong_report
    stage3_strategy :=
      { strategy := "HoldPosition", action := "", confidence := 25/100 }
    current_strategy := some (failed_record "HoldPosition")
    strategy_history := [failed_record "ResumeOptimization",
      failed_record "SkillGapPatch", failed_record "RoleShift"] }

/-- A session with no active strategy. -/
def c8_session : AgentSession :=
  { stage1_evidence := {}
    stage2_bottleneck := all_strong_report
    stage3_strategy :=
      { strategy := "HoldPosition", action := "", confidence := 90/100 }
    current_strategy := none }

/-- A fresh EXPLORE record with confidence 0.70. -/
def explore_record : StrategyRecord :=
  { strategy := "ResumeOptimization"
    initial_confidence := 70/100
    current_confidence := 70/100 }

/-- A session with the fresh EXPLORE record as current strategy. -/
def explore_session : AgentSession :=
  { stage1_evidence := {}
    stage2_bottleneck := all_strong_report
    stage3_strategy :=
      { strategy := "ResumeOptimization", action := "", confidence := 70/100 }
    current_strategy := some explore_record }

/-- A session whose current strategy has just failed. -/
def c10_session : AgentSession :=
  { stage1_evidence := {}
    stage2_bottleneck := all_strong_report
    stage3_strategy :=
      { strategy := "RoleShift", action := "", confidence := 45/100 }
    current_strategy := some (failed_record "RoleShift") }

/-! ### Helper lemmas -/

/-- Mathlib's `round` is monotone on ℚ. -/
lemma round_le_round_rat {x y : ℚ} (h : x ≤ y) : round x ≤ round y := by
  rw [round_eq, round_eq]
  exact Int.floor_le_floor (by linarith)

/-- Rounding to hundredths keeps a value between two hundredth bounds. -/
lemma roundq2_bounds {lo hi : ℤ} {x : ℚ}
    (h1 : (lo : ℚ)/100 ≤ x) (h2 : x ≤ (hi : ℚ)/100) :
    (lo : ℚ)/100 ≤ roundq2 x ∧ roundq2 x ≤ (hi : ℚ)/100 := by
  have hlo : (lo : ℚ) ≤ 100 * x := by linarith
  have hhi : 100 * x ≤ (hi : ℚ) := by linarith
  have h3 : lo ≤ round (100 * x) := by
    have := round_le_round_rat hlo
    rwa [round_intCast] at this
  have h4 : round (100 * x) ≤ hi := by
    have := round_le_round_rat hhi
    rwa [round_intCast] at this
  have h3q : (lo : ℚ) ≤ ((round (100 * x) : ℤ) : ℚ) := by exact_mod_cast h3
  have h4q : ((round (100 * x) : ℤ) : ℚ) ≤ (hi : ℚ) := by exact_mod_cast h4
  unfold roundq2
  constructor <;> linarith

/-- `update_confidence` always lands in [0.10, 0.95]. -/
lemma update_confidence_mem (c : ℚ) (o : String) :
    10/100 ≤ update_confidence c o ∧ update_confidence c o ≤ 95/100 := by
  unfold update_confidence
  have h1 : ((10 : ℤ) : ℚ)/100 ≤
      max (10/100) (min (95/100) (c + CONFIDENCE_DELTA o)) := by
    have : ((10 : ℤ) : ℚ)/100 = (10 : ℚ)/100 := by norm_num
    rw [this]
    exact le_max_left _ _
  have h2 : max (10/100) (min (95/100) (c + CONFIDENCE_DELTA o)) ≤
      ((95 : ℤ) : ℚ)/100 := by
    apply max_le
    · norm_num
    · have : ((95 : ℤ) : ℚ)/100 = (95 : ℚ)/100 := by norm_num
      rw [this]
      exact min_le_left _ _
  have := roundq2_bounds h1 h2
  constructor
  · have h10 : ((10 : ℤ) : ℚ)/100 = (10 : ℚ)/100 := by norm_num
    rw [← h10]; exact this.1
  · have h95 : ((95 : ℤ) : ℚ)/100 = (95 : ℚ)/100 := by norm_num
    rw [← h95]; exact this.2

/-- `update_confidence` always produces a whole number of hundredths. -/
lemma update_confidence_hundredth (c : ℚ) (o : String) :
    ∃ n : ℤ, update_confidence c o = (n : ℚ)/100 :=
  ⟨round (100 * max (10/100) (min (95/100) (c + CONFIDENCE_DELTA o))), rfl⟩

/-- Folding outcome updates over any nonempty outcome list lands in
[0.10, 0.95] at a whole number of hundredths. -/
lemma foldl_update_confidence_props (os : List String) (c : ℚ)
    (h : os ≠ []) :
    10/100 ≤ os.foldl update_confidence c ∧
      os.foldl update_confidence c ≤ 95/100 ∧
      ∃ n : ℤ, os.foldl update_confidence c = (n : ℚ)/100 := by
  induction os generalizing c with
  | nil => exact absurd rfl h
  | cons o t ih =>
    rw [List.foldl_cons]
    rcases t.eq_nil_or_concat with ht | _
    · subst ht
      rw [List.foldl_nil]
      exact ⟨(update_confidence_mem c o).1, (update_confidence_mem c o).2,
        update_confidence_hundredth c o⟩
    · have ht : t ≠ [] := by
        rintro rfl
        simp_all
      exact ih (update_confidence c o) ht

/-! ### Claim C2 -/

/-- C2: for every starting confidence and outcome tag, the per-outcome
update adds the fixed delta (interview +0.15, rejected −0.10,
no_response −0.08), clamps to [0.10, 0.95] and rounds to 2 decimals;
hence after any nonempty sequence of outcome updates the confidence lies
in [0.10, 0.95] with 2-decimal precision. -/
theorem claim_C2_confidence_update (c : ℚ) (o : String) (os : List String)
    (h : os ≠ []) :
    update_confidence c o =
      roundq2 (max (10/100) (min (95/100) (c + CONFIDENCE_DELTA o))) ∧
    CONFIDENCE_DELTA "interview" = 15/100 ∧
    CONFIDENCE_DELTA "rejected" = -(10/100) ∧
    CONFIDENCE_DELTA "no_response" = -(8/100) ∧
    (10/100 ≤ update_confidence c o ∧ update_confidence c o ≤ 95/100 ∧
      ∃ n : ℤ, update_confidence c o = (n : ℚ)/100) ∧
    (10/100 ≤ os.foldl update_confidence c ∧
      os.foldl update_confidence c ≤ 95/100 ∧
      ∃ n : ℤ, os.foldl update_confidence c = (n : ℚ)/100) :=
  ⟨rfl,
   by unfold CONFIDENCE_DELTA; rw [if_pos rfl],
   by unfold CONFIDENCE_DELTA; rw [if_neg (by decide), if_pos rfl],
   by unfold CONFIDENCE_DELTA; rw [if_neg (by decide), if_neg (by decide),
     if_pos rfl],
   ⟨(update_confidence_mem c o).1, (update_confidence_mem c o).2,
    update_confidence_hundredth c o⟩,
   foldl_update_confidence_props os c h⟩

/-- Witness for C2 at confidence 0.70, outcome "interview" and the
outcome list ["interview"]. -/
theorem claim_C2_confidence_update_witness :
    (["interview"] : List String) ≠ [] ∧
    (update_confidence (70/100) "interview" =
      roundq2 (max (10/100) (min (95/100) (70/100 + CONFIDENCE_DELTA "interview"))) ∧
    CONFIDENCE_DELTA "interview" = 15/100 ∧
    CONFIDENCE_DELTA "rejected" = -(10/100) ∧
    CONFIDENCE_DELTA "no_response" = -(8/100) ∧
    (10/100 ≤ update_confidence (70/100) "interview" ∧
      update_confidence (70/100) "interview" ≤ 95/100 ∧
      ∃ n : ℤ, update_confidence (70/100) "interview" = (n : ℚ)/100) ∧
    (10/100 ≤ (["interview"] : List String).foldl update_confidence (70/100) ∧
      (["interview"] : List String).foldl update_confidence (70/100) ≤ 95/100 ∧
      ∃ n : ℤ,
        (["interview"] : List String).foldl update_confidence (70/100) = (n : ℚ)/100)) :=
  ⟨by simp,
   claim_C2_confidence_update (70/100) "interview" ["interview"] (by simp)⟩

/-! ### Claim C3 -/

/-- The head of a filtered list is the first element satisfying the
predicate. -/
lemma head_filter_find {α : Type} (p : α → Bool) (l : List α) :
    (match l.filter p with
     | c :: _ => some c
     | [] => none) = l.find? p := by
  induction l with
  | nil => rfl
  | cons a t ih =>
    cases hp : p a
    · simp [List.filter_cons, List.find?, hp, ih]
    · simp [List.filter_cons, List.find?, hp]

/-- C3: the dominant issue selected by the diagnoser is the first
category rated missing in the fixed priority order, else the first
rated weak, else none (the quantification over all rating assignments
covers the rating dict of every report the diagnoser produces). -/
theorem claim_C3_dominant_issue (b : Category → Rating)
    (s : SectionSignals) (role : String) :
    (select_dominant_issue b s role).1 =
      (match BOTTLENECK_PRIORITY.find? (fun c => b c = Rating.missing) with
       | some c => some c
       | none => BOTTLENECK_PRIORITY.find? (fun c => b c = Rating.weak)) ∧
    ((∀ c, b c = Rating.strong) → (select_dominant_issue b s role).1 = none) := by
  have key : (select_dominant_issue b s role).1 =
      (match BOTTLENECK_PRIORITY.find? (fun c => b c = Rating.missing) with
       | some c => some c
       | none => BOTTLENECK_PRIORITY.find? (fun c => b c = Rating.weak)) := by
    have hm := head_filter_find
      (fun c => decide (b c = Rating.missing)) BOTTLENECK_PRIORITY
    have hw := head_filter_find
      (fun c => decide (b c = Rating.weak)) BOTTLENECK_PRIORITY
    unfold select_dominant_issue
    cases hfm : BOTTLENECK_PRIORITY.filter
        (fun c => decide (b c = Rating.missing)) with
    | cons d t =>
      rw [hfm] at hm
      simp only [← hm]
    | nil =>
      rw [hfm] at hm
      cases hfw : BOTTLENECK_PRIORITY.filter
          (fun c => decide (b c = Rating.weak)) with
      | cons d t =>
        rw [hfw] at hw
        simp only [← hm, ← hw]
      | nil =>
        rw [hfw] at hw
        simp only [← hm, ← hw]
  refine ⟨key, fun hall => ?_⟩
  rw [key]
  have h1 : BOTTLENECK_PRIORITY.find? (fun c => b c = Rating.missing) = none := by
    rw [List.find?_eq_none]
    intro x _
    simp [hall x]
  have h2 : BOTTLENECK_PRIORITY.find? (fun c => b c = Rating.weak) = none := by
    rw [List.find?_eq_none]
    intro x _
    simp [hall x]
  rw [h1, h2]

/-- Witness for C3: with every category strong, the diagnoser reports
no dominant issue. -/
theorem claim_C3_dominant_issue_witness :
    (select_dominant_issue (fun _ => Rating.strong) {} "Software Engineer").1 = none :=
  (claim_C3_dominant_issue (fun _ => Rating.strong) {} "Software Engineer").2
    (fun _ => rfl)

/-! ### Claim C4 -/

/-- Counterexample to C4: with `experience_strength` rated missing but
both internship and project evidence present, the selector returns
RoleShift although the claim's iff-condition is false (the claim
predicts ResumeOptimization). -/
theorem claim_C4_counterexample :
    select_strategy (some Category.experience_strength)
      (fun c => if c = Category.experience_strength then Rating.missing
                else Rating.strong)
      (some { has_internship := true, has_projects := true }) = "RoleShift" ∧
    ¬ roleShift_condition_per_claim
      (fun c => if c = Category.experience_strength then Rating.missing
                else Rating.strong)
      { has_internship := true, has_projects := true } := by
  unfold roleShift_condition_per_claim
  decide

set_option maxRecDepth 4000 in
/-- C4 (amended): evidence_depth, positioning, outcome_visibility route
to ResumeOptimization; skill_alignment to SkillGapPatch; no dominant
issue to HoldPosition; experience_strength routes to RoleShift iff the
section signals are present with neither internship nor project
evidence, or its severity is "missing" (regardless of the signals),
otherwise to ResumeOptimization. -/
theorem claim_C4_amended :
    ∀ (dom : Option Category) (b : Category → Rating)
      (signals : Option SectionSignals),
      select_strategy dom b signals =
        (match dom with
         | none => "HoldPosition"
         | some Category.evidence_depth => "ResumeOptimization"
         | some Category.positioning => "ResumeOptimization"
         | some Category.outcome_visibility => "ResumeOptimization"
         | some Category.skill_alignment => "SkillGapPatch"
         | some Category.experience_strength =>
           if ((match signals with
                | some s => !s.has_internship && !s.has_projects
                | none => false) ||
               (b Category.experience_strength == Rating.missing))
           then "RoleShift" else "ResumeOptimization") := by
  decide

/-! ### Claim C5 -/

/-- Rounding fixes a value that is already a whole number of
hundredths. -/
lemma roundq2_of_hundredth (n : ℤ) : roundq2 ((n : ℚ)/100) = (n : ℚ)/100 := by
  unfold roundq2
  have h : (100 : ℚ) * ((n : ℚ)/100) = (n : ℚ) := by field_simp
  rw [h, round_intCast]

/-- Clamping to [0.20, 0.95] and rounding lands in [0.20, 0.95]. -/
lemma clamp2095_mem (x : ℚ) :
    20/100 ≤ roundq2 (max (20/100) (min (95/100) x)) ∧
    roundq2 (max (20/100) (min (95/100) x)) ≤ 95/100 := by
  have h1 : ((20 : ℤ) : ℚ)/100 ≤ max (20/100) (min (95/100) x) := by
    have h : ((20 : ℤ) : ℚ)/100 = (20 : ℚ)/100 := by norm_num
    rw [h]
    exact le_max_left _ _
  have h2 : max (20/100) (min (95/100) x) ≤ ((95 : ℤ) : ℚ)/100 := by
    apply max_le
    · norm_num
    · have h : ((95 : ℤ) : ℚ)/100 = (95 : ℚ)/100 := by norm_num
      rw [h]
      exact min_le_left _ _
  have hb := roundq2_bounds h1 h2
  have h20 : ((20 : ℤ) : ℚ)/100 = (20 : ℚ)/100 := by norm_num
  have h95 : ((95 : ℤ) : ℚ)/100 = (95 : ℚ)/100 := by norm_num
  rw [h20, h95] at hb
  exact hb

set_option maxRecDepth 4000 in
/-- Counting {weak, missing} ratings agrees with counting non-strong
ratings. -/
lemma other_issues_count_eq : ∀ (b : Category → Rating) (c : Category),
    (categories.filter (fun k =>
      k ≠ c ∧ (b k = Rating.weak ∨ b k = Rating.missing))).length =
    other_non_strong_count b c := by
  decide

/-- C5: the selector confidence equals the spec formula
(base + severity adjustment − 0.05 × other non-strong categories,
clamped to [0.20, 0.95] and rounded), with the fixed bases; with no
dominant issue it is min(0.90, base + 0.05); and the spec's example
report (evidence_depth weak, others strong) yields ResumeOptimization
with confidence exactly 0.70. -/
theorem claim_C5_confidence (strategy : String) (b : Category → Rating)
    (dom : Option Category) :
    calculate_confidence strategy b dom = confidence_per_spec strategy b dom ∧
    (∀ c : Category, 20/100 ≤ calculate_confidence strategy b (some c) ∧
      calculate_confidence strategy b (some c) ≤ 95/100) ∧
    calculate_confidence strategy b none =
      min (90/100) (BASE_CONFIDENCE strategy + 5/100) ∧
    BASE_CONFIDENCE "ResumeOptimization" = 70/100 ∧
    BASE_CONFIDENCE "SkillGapPatch" = 55/100 ∧
    BASE_CONFIDENCE "RoleShift" = 45/100 ∧
    BASE_CONFIDENCE "HoldPosition" = 85/100 ∧
    select_strategy (some Category.evidence_depth)
      (fun c => if c = Category.evidence_depth then Rating.weak
                else Rating.strong) none = "ResumeOptimization" ∧
    calculate_confidence "ResumeOptimization"
      (fun c => if c = Category.evidence_depth then Rating.weak
                else Rating.strong)
      (some Category.evidence_depth) = 70/100 := by
  refine ⟨?_, ?_, rfl, ?_, ?_, ?_, ?_, by decide, ?_⟩
  · cases dom with
    | none => rfl
    | some c =>
      unfold calculate_confidence confidence_per_spec
      dsimp only
      rw [other_issues_count_eq b c]
  · intro c
    unfold calculate_confidence
    exact clamp2095_mem _
  · unfold BASE_CONFIDENCE; rw [if_pos rfl]
  · unfold BASE_CONFIDENCE; rw [if_neg (by decide), if_pos rfl]
  · unfold BASE_CONFIDENCE
    rw [if_neg (by decide), if_neg (by decide), if_pos rfl]
  · unfold BASE_CONFIDENCE
    rw [if_neg (by decide), if_neg (by decide), if_neg (by decide), if_pos rfl]
  · unfold calculate_confidence
    dsimp only
    have hcount : (List.filter (fun k => decide (k ≠ Category.evidence_depth ∧
        ((if k = Category.evidence_depth then Rating.weak else Rating.strong)
            = Rating.weak ∨
         (if k = Category.evidence_depth then Rating.weak else Rating.strong)
            = Rating.missing))) categories).length = 0 := by decide
    rw [hcount, if_pos rfl]
    rw [show CONFIDENCE_ADJUSTMENTS Rating.weak = 0 from rfl]
    rw [show BASE_CONFIDENCE "ResumeOptimization" = 70/100 from by
      unfold BASE_CONFIDENCE; rw [if_pos rfl]]
    have harg : ((20:ℚ)/100 ⊔ (95:ℚ)/100 ⊓
        ((70:ℚ)/100 + 0 - ((0:ℕ):ℚ) * (5/100))) = ((70 : ℤ) : ℚ)/100 := by
      norm_num
    rw [harg, roundq2_of_hundredth]
    norm_num

/-! ### Claim C7 -/

/-- C7: the roadmap gate is eligible exactly when the current record is
in EXECUTE, and otherwise reports the reason keyed by the actual state
(one reason each for EXPLORE, VALIDATE, RECONSIDER and for an absent
record).  The check is a pure function of the session value: it returns
only a result record, so it cannot modify the session. -/
theorem claim_C7_roadmap_gate (session : AgentSession) :
    ((check_roadmap_eligibility session).eligible = true ↔
      (∃ r, session.current_strategy = some r ∧
        r.strategy_state = StrategyState.execute)) ∧
    (check_roadmap_eligibility session).current_state =
      session.current_strategy.map (fun r => r.strategy_state) ∧
    (check_roadmap_eligibility session).reason =
      (match session.current_strategy with
       | none => "No active strategy found"
       | some r =>
         match r.strategy_state with
         | .execute => "Strategy '" ++ r.strategy ++
             "' in EXECUTE state (confidence: " ++
             toString r.current_confidence ++ ")"
         | .explore => "Strategy '" ++ r.strategy ++
             "' is in EXPLORE state. Need at least 1 interview to validate before generating roadmap."
         | .validate => "Strategy '" ++ r.strategy ++
             "' is in VALIDATE state. Need 2+ interviews and confidence ≥ 0.65 to execute."
         | .reconsider => "Strategy '" ++ r.strategy ++
             "' is in RECONSIDER state (failed). Cannot generate roadmap for failed strategy.") := by
  rcases hcur : session.current_strategy with _ | r
  · refine ⟨?_, ?_, ?_⟩ <;>
      simp [check_roadmap_eligibility, hcur]
  · cases hstate : r.strategy_state <;>
      refine ⟨?_, ?_, ?_⟩ <;>
      simp [check_roadmap_eligibility, hcur, hstate]

/-! ### Claim C1 -/

/-- Counterexample to C1: a record in EXECUTE with three recorded
negative outcomes is moved to RECONSIDER by the state-evaluation step
(the failure rule applies in every state), so EXECUTE is not absorbing
under `evaluate_strategy_state`. -/
theorem claim_C1_counterexample :
    c1_record.strategy_state = StrategyState.execute ∧
    (evaluate_strategy_state c1_session none).current_strategy.map
      (fun r => r.strategy_state) = some StrategyState.reconsider := by
  constructor
  · rfl
  · have hconf : ¬((65 : ℚ)/100 < FAILURE_THRESHOLD) := by
      unfold FAILURE_THRESHOLD; norm_num
    unfold evaluate_strategy_state c1_session c1_record
    simp [hconf, negative_count, NEGATIVE_OUTCOME_LIMIT]

/-- C1 (amended): once a record is in EXECUTE, the state-evaluation
step leaves it in EXECUTE unless the overriding failure rule fires
(confidence < 0.30 or at least 3 negative outcomes), in which case the
state becomes RECONSIDER with failed set to true (and the failed flag
is untouched otherwise); evaluation never alters the record's
strategy, confidences or outcomes.  The active record is only ever
replaced through re-evaluation: outcome recording keeps the same
record (same strategy, initial confidence and state, outcomes merely
appended), re-evaluation is a no-op while the record is unfailed, and
on a failed record it archives it and installs a brand-new unfailed
EXPLORE record. -/
theorem claim_C1_amended (session : AgentSession) (r : StrategyRecord)
    (ps : Option ProfileSignals) (o : String) (new_stage2 : Report)
    (h : session.current_strategy = some r)
    (hx : r.strategy_state = StrategyState.execute) :
    (∃ r', (evaluate_strategy_state session ps).current_strategy = some r' ∧
      r'.strategy_state =
        (if r.current_confidence < FAILURE_THRESHOLD ∨
            negative_count r.outcomes ≥ NEGATIVE_OUTCOME_LIMIT
         then StrategyState.reconsider else StrategyState.execute) ∧
      r'.failed =
        (if r.current_confidence < FAILURE_THRESHOLD ∨
            negative_count r.outcomes ≥ NEGATIVE_OUTCOME_LIMIT
         then true else r.failed) ∧
      r'.strategy = r.strategy ∧
      r'.current_confidence = r.current_confidence ∧
      r'.initial_confidence = r.initial_confidence ∧
      r'.outcomes = r.outcomes) ∧
    (∀ s', record_outcome session o = Except.ok s' →
      ∃ r'', s'.current_strategy = some r'' ∧
        r''.strategy = r.strategy ∧
        r''.initial_confidence = r.initial_confidence ∧
        r''.strategy_state = r.strategy_state ∧
        r''.outcomes = r.outcomes ++ [o]) ∧
    (r.failed = false →
      re_evaluate_strategy new_stage2 session = session) ∧
    (r.failed = true →
      ∃ rn, (re_evaluate_strategy new_stage2 session).current_strategy =
        some rn ∧ rn.outcomes = [] ∧ rn.failed = false ∧
        rn.strategy_state = StrategyState.explore ∧
        (re_evaluate_strategy new_stage2 session).strategy_history =
          session.strategy_history ++ [r]) := by
  refine ⟨?_, ?_, ?_, ?_⟩
  · unfold evaluate_strategy_state
    rw [h]
    dsimp only
    by_cases h1 : r.current_confidence < FAILURE_THRESHOLD
    · rw [if_pos h1, hx]
      simp only [ne_eq, reduceCtorEq, not_false_iff, if_true]
      refine ⟨_, rfl, ?_, ?_, rfl, rfl, rfl, rfl⟩
      · rw [if_pos (Or.inl h1)]
      · rw [if_pos (Or.inl h1)]
    · rw [if_neg h1]
      by_cases h2 : negative_count r.outcomes ≥ NEGATIVE_OUTCOME_LIMIT
      · rw [if_pos h2, hx]
        simp only [ne_eq, reduceCtorEq, not_false_iff, if_true]
        refine ⟨_, rfl, ?_, ?_, rfl, rfl, rfl, rfl⟩
        · rw [if_pos (Or.inr h2)]
        · rw [if_pos (Or.inr h2)]
      · rw [if_neg h2, hx]
        rw [if_neg (show ¬(StrategyState.execute = StrategyState.explore) from
          by decide)]
        rw [if_neg (show ¬(StrategyState.execute = StrategyState.validate) from
          by decide)]
        simp only [ne_eq, not_true_eq_false, if_false]
        refine ⟨r, h, ?_, ?_, rfl, rfl, rfl, rfl⟩
        · rw [if_neg (not_or.mpr ⟨h1, h2⟩), hx]
        · rw [if_neg (not_or.mpr ⟨h1, h2⟩)]
  · intro s' hs
    unfold record_outcome at hs
    by_cases hv : o = "no_response" ∨ o = "rejected" ∨ o = "interview"
    · rw [if_neg (not_not_intro hv), h] at hs
      dsimp only at hs
      split at hs
      · injection hs with hs'
        subst hs'
        exact ⟨_, rfl, rfl, rfl, rfl, rfl⟩
      · injection hs with hs'
        subst hs'
        exact ⟨_, rfl, rfl, rfl, rfl, rfl⟩
    · rw [if_pos hv] at hs
      cases hs
  · intro hnf
    unfold re_evaluate_strategy
    rw [h]
    dsimp only
    rw [if_pos hnf]
  · intro hft
    unfold re_evaluate_strategy
    rw [h]
    dsimp only
    rw [if_neg (by simp [hft])]
    exact ⟨_, rfl, rfl, rfl, rfl, rfl⟩

/-- Witness for the amended C1 at the concrete EXECUTE session above,
where the failure rule fires through the three negative outcomes. -/
theorem claim_C1_amended_witness :
    (∃ r', (evaluate_strategy_state c1_session none).current_strategy =
      some r' ∧
      r'.strategy_state =
        (if c1_record.current_confidence < FAILURE_THRESHOLD ∨
            negative_count c1_record.outcomes ≥ NEGATIVE_OUTCOME_LIMIT
         then StrategyState.reconsider else StrategyState.execute) ∧
      r'.failed =
        (if c1_record.current_confidence < FAILURE_THRESHOLD ∨
            negative_count c1_record.outcomes ≥ NEGATIVE_OUTCOME_LIMIT
         then true else c1_record.failed) ∧
      r'.strategy = c1_record.strategy ∧
      r'.current_confidence = c1_record.current_confidence ∧
      r'.initial_confidence = c1_record.initial_confidence ∧
      r'.outcomes = c1_record.outcomes) ∧
    (∀ s', record_outcome c1_session "rejected" = Except.ok s' →
      ∃ r'', s'.current_strategy = some r'' ∧
        r''.strategy = c1_record.strategy ∧
        r''.initial_confidence = c1_record.initial_confidence ∧
        r''.strategy_state = c1_record.strategy_state ∧
        r''.outcomes = c1_record.outcomes ++ ["rejected"]) ∧
    (c1_record.failed = false →
      re_evaluate_strategy all_strong_report c1_session = c1_session) ∧
    (c1_record.failed = true →
      ∃ rn, (re_evaluate_strategy all_strong_report c1_session).current_strategy =
        some rn ∧ rn.outcomes = [] ∧ rn.failed = false ∧
        rn.strategy_state = StrategyState.explore ∧
        (re_evaluate_strategy all_strong_report c1_session).strategy_history =
          c1_session.strategy_history ++ [c1_record]) :=
  claim_C1_amended c1_session c1_record none "rejected" all_strong_report
    rfl rfl

/-! ### Claim C8 -/

/-- C8: recording an outcome with an unknown tag, or with no current
strategy, produces the descriptive error (Python raises before touching
the session, so nothing is appended, updated or logged); with a valid
tag and a current strategy present, no error is raised. -/
theorem claim_C8_record_outcome_validation (session : AgentSession)
    (outcome : String) :
    (¬(outcome = "no_response" ∨ outcome = "rejected" ∨
        outcome = "interview") →
      record_outcome session outcome =
        Except.error ("Invalid outcome: " ++ outcome ++
          ". Must be one of: no_response, rejected, interview")) ∧
    ((outcome = "no_response" ∨ outcome = "rejected" ∨
        outcome = "interview") →
      session.current_strategy = none →
      record_outcome session outcome =
        Except.error "No active strategy to record outcome for") ∧
    (∀ r, session.current_strategy = some r →
      (outcome = "no_response" ∨ outcome = "rejected" ∨
        outcome = "interview") →
      ∃ s', record_outcome session outcome = Except.ok s') := by
  refine ⟨?_, ?_, ?_⟩
  · intro hbad
    unfold record_outcome
    rw [if_pos hbad]
  · intro hv hnone
    unfold record_outcome
    rw [if_neg (not_not_intro hv), hnone]
  · intro r hr hv
    unfold record_outcome
    rw [if_neg (not_not_intro hv), hr]
    dsimp only
    split
    · exact ⟨_, rfl⟩
    · exact ⟨_, rfl⟩

/-- Witness for C8: the unknown tag "promoted" and the missing-strategy
case are both rejected with their error messages, while a valid tag on
an active session succeeds. -/
theorem claim_C8_record_outcome_validation_witness :
    record_outcome c8_session "promoted" =
      Except.error ("Invalid outcome: " ++ "promoted" ++
        ". Must be one of: no_response, rejected, interview") ∧
    record_outcome c8_session "interview" =
      Except.error "No active strategy to record outcome for" ∧
    ∃ s', record_outcome explore_session "interview" = Except.ok s' :=
  ⟨(claim_C8_record_outcome_validation c8_session "promoted").1 (by decide),
   (claim_C8_record_outcome_validation c8_session "interview").2.1
     (by decide) rfl,
   (claim_C8_record_outcome_validation explore_session "interview").2.2
     explore_record rfl (by decide)⟩

/-! ### Claim C10 -/

/-- C10: the failed flag is monotone.  Once a record is failed, the
legacy check reports it failed, recording an outcome keeps it failed,
state evaluation keeps it failed, and re-evaluation archives it
unchanged (still failed) while installing a brand-new unfailed record. -/
theorem claim_C10_failed_monotone (session : AgentSession)
    (r : StrategyRecord) (o : String) (ps : Option ProfileSignals)
    (new_stage2 : Report)
    (h : session.current_strategy = some r) (hf : r.failed = true) :
    should_invalidate r = true ∧
    (∀ s', record_outcome session o = Except.ok s' →
      ∃ r', s'.current_strategy = some r' ∧ r'.failed = true) ∧
    (∃ r', (evaluate_strategy_state session ps).current_strategy = some r' ∧
      r'.failed = true) ∧
    (re_evaluate_strategy new_stage2 session).strategy_history.getLast? =
      some r ∧
    (∃ r', (re_evaluate_strategy new_stage2 session).current_strategy =
      some r' ∧ r'.outcomes = [] ∧ r'.failed = false ∧
      r'.strategy_state = StrategyState.explore) := by
  refine ⟨?_, ?_, ?_, ?_, ?_⟩
  · unfold should_invalidate
    rw [if_pos hf]
  · intro s' hs
    unfold record_outcome at hs
    by_cases hv : o = "no_response" ∨ o = "rejected" ∨ o = "interview"
    · rw [if_neg (not_not_intro hv), h] at hs
      dsimp only at hs
      rw [if_pos (show should_invalidate _ = true from by
        unfold should_invalidate; rw [if_pos hf])] at hs
      injection hs with hs'
      exact ⟨_, by rw [← hs'], rfl⟩
    · rw [if_pos hv] at hs
      cases hs
  · unfold evaluate_strategy_state
    rw [h]
    dsimp only
    repeat' split
    all_goals
      first
        | exact ⟨r, h, hf⟩
        | exact ⟨_, rfl, by simp [hf]⟩
  · unfold re_evaluate_strategy
    rw [h]
    dsimp only
    rw [if_neg (by simp [hf])]
    simp
  · unfold re_evaluate_strategy
    rw [h]
    dsimp only
    rw [if_neg (by simp [hf])]
    exact ⟨_, rfl, rfl, rfl, rfl⟩

/-- Witness for C10 on a session whose current RoleShift record has
failed. -/
theorem claim_C10_failed_monotone_witness :
    should_invalidate (failed_record "RoleShift") = true ∧
    (re_evaluate_strategy all_strong_report c10_session).strategy_history.getLast? =
      some (failed_record "RoleShift") :=
  have h := claim_C10_failed_monotone c10_session (failed_record "RoleShift")
    "interview" none all_strong_report rfl rfl
  ⟨h.1, h.2.2.2.1⟩

/-! ### Claim C6 -/

set_option maxRecDepth 8000 in
/-- The selector only ever returns one of the four fixed strategy
names. -/
lemma select_strategy_mem_priority (dom : Option Category)
    (b : Category → Rating) (sig : Option SectionSignals) :
    select_strategy dom b sig ∈ STRATEGY_PRIORITY := by
  revert dom b sig
  decide

/-- C6: re-evaluation of a failed strategy archives it into history and
re-selects; a fresh selection whose name is in the failed set is
discarded for the fallback, which takes the first name of the priority
order not in the failed set with the fixed reduced confidences; and
when all four names have failed the result is HoldPosition with
confidence exactly 0.25 and the exhaustion action. -/
theorem claim_C6_re_evaluation (session : AgentSession) (r : StrategyRecord)
    (new_stage2 : Report)
    (h : session.current_strategy = some r) (hf : r.failed = true) :
    (re_evaluate_strategy new_stage2 session).strategy_history =
      session.strategy_history ++ [r] ∧
    (re_evaluate_strategy new_stage2 session).loop_iteration =
      session.loop_iteration + 1 ∧
    (∃ r', (re_evaluate_strategy new_stage2 session).current_strategy =
      some r' ∧
      r'.strategy_state = StrategyState.explore ∧ r'.failed = false ∧
      r'.outcomes = [] ∧
      r'.strategy =
        (re_evaluate_strategy new_stage2 session).stage3_strategy.strategy ∧
      r'.initial_confidence =
        (re_evaluate_strategy new_stage2 session).stage3_strategy.confidence ∧
      r'.current_confidence =
        (re_evaluate_strategy new_stage2 session).stage3_strategy.confidence) ∧
    ((select_strategy_and_action new_stage2
        session.stage1_evidence.section_signals).strategy ∉
      (((session.strategy_history ++ [r]).filter (fun s => s.failed)).map
        (fun s => s.strategy)) →
      (re_evaluate_strategy new_stage2 session).stage3_strategy =
        select_strategy_and_action new_stage2
          session.stage1_evidence.section_signals) ∧
    ((select_strategy_and_action new_stage2
        session.stage1_evidence.section_signals).strategy ∈
      (((session.strategy_history ++ [r]).filter (fun s => s.failed)).map
        (fun s => s.strategy)) →
      (re_evaluate_strategy new_stage2 session).stage3_strategy =
        select_fallback_strategy new_stage2
          (((session.strategy_history ++ [r]).filter (fun s => s.failed)).map
            (fun s => s.strategy))
          session.stage1_evidence.section_signals) ∧
    (∀ name, STRATEGY_PRIORITY.find? (fun s => ¬(s ∈
        (((session.strategy_history ++ [r]).filter (fun s => s.failed)).map
          (fun s => s.strategy)))) = some name →
      select_fallback_strategy new_stage2
        (((session.strategy_history ++ [r]).filter (fun s => s.failed)).map
          (fun s => s.strategy))
        session.stage1_evidence.section_signals =
        { strategy := name, action := FALLBACK_ACTIONS_loop name,
          confidence := FALLBACK_CONFIDENCE name }) ∧
    ((∀ name ∈ STRATEGY_PRIORITY, name ∈
        (((session.strategy_history ++ [r]).filter (fun s => s.failed)).map
          (fun s => s.strategy))) →
      (re_evaluate_strategy new_stage2 session).stage3_strategy =
        { strategy := "HoldPosition",
          action := "All strategies exhausted. Recommend manual review of career positioning.",
          confidence := 25/100 }) ∧
    FALLBACK_CONFIDENCE "ResumeOptimization" = 55/100 ∧
    FALLBACK_CONFIDENCE "SkillGapPatch" = 45/100 ∧
    FALLBACK_CONFIDENCE "RoleShift" = 35/100 ∧
    FALLBACK_CONFIDENCE "HoldPosition" = 70/100 := by
  have hfb : ∀ name, STRATEGY_PRIORITY.find? (fun s => ¬(s ∈
      (((session.strategy_history ++ [r]).filter (fun s => s.failed)).map
        (fun s => s.strategy)))) = some name →
      select_fallback_strategy new_stage2
        (((session.strategy_history ++ [r]).filter (fun s => s.failed)).map
          (fun s => s.strategy))
        session.stage1_evidence.section_signals =
        { strategy := name, action := FALLBACK_ACTIONS_loop name,
          confidence := FALLBACK_CONFIDENCE name } := by
    intro name hname
    unfold select_fallback_strategy
    rw [hname]
  have hexh : (∀ name ∈ STRATEGY_PRIORITY, name ∈
      (((session.strategy_history ++ [r]).filter (fun s => s.failed)).map
        (fun s => s.strategy))) →
      select_fallback_strategy new_stage2
        (((session.strategy_history ++ [r]).filter (fun s => s.failed)).map
          (fun s => s.strategy))
        session.stage1_evidence.section_signals =
        { strategy := "HoldPosition",
          action := "All strategies exhausted. Recommend manual review of career positioning.",
          confidence := 25/100 } := by
    intro hall
    unfold select_fallback_strategy
    rw [List.find?_eq_none.mpr (by
      intro x hx
      simp only [decide_not, Bool.not_eq_true', decide_eq_false_iff_not,
        not_not]
      exact hall x hx)]
  unfold re_evaluate_strategy
  rw [h]
  dsimp only
  rw [if_neg (by simp [hf])]
  dsimp only
  by_cases hmem : (select_strategy_and_action new_stage2
      session.stage1_evidence.section_signals).strategy ∈
      (((session.strategy_history ++ [r]).filter (fun s => s.failed)).map
        (fun s => s.strategy))
  · rw [if_pos hmem]
    refine ⟨rfl, rfl, ⟨_, rfl, rfl, rfl, rfl, rfl, rfl, rfl⟩,
      fun hno => absurd hmem hno, fun _ => rfl, hfb, ?_, ?_, ?_, ?_, ?_⟩
    · intro hall
      exact hexh hall
    · unfold FALLBACK_CONFIDENCE; rw [if_pos rfl]
    · unfold FALLBACK_CONFIDENCE; rw [if_neg (by decide), if_pos rfl]
    · unfold FALLBACK_CONFIDENCE
      rw [if_neg (by decide), if_neg (by decide), if_pos rfl]
    · unfold FALLBACK_CONFIDENCE
      rw [if_neg (by decide), if_neg (by decide), if_neg (by decide)]
  · rw [if_neg hmem]
    refine ⟨rfl, rfl, ⟨_, rfl, rfl, rfl, rfl, rfl, rfl, rfl⟩,
      fun _ => rfl, fun hyes => absurd hyes hmem, hfb, ?_, ?_, ?_, ?_, ?_⟩
    · intro hall
      exact absurd (hall _ (select_strategy_mem_priority _ _ _)) hmem
    · unfold FALLBACK_CONFIDENCE; rw [if_pos rfl]
    · unfold FALLBACK_CONFIDENCE; rw [if_neg (by decide), if_pos rfl]
    · unfold FALLBACK_CONFIDENCE
      rw [if_neg (by decide), if_neg (by decide), if_pos rfl]
    · unfold FALLBACK_CONFIDENCE
      rw [if_neg (by decide), if_neg (by decide), if_neg (by decide)]

/-- Witness for C6 on the session whose four strategies have all
failed: re-evaluation forces HoldPosition at confidence 0.25 with the
exhaustion action. -/
theorem claim_C6_re_evaluation_witness :
    (re_evaluate_strategy all_strong_report c6_session).stage3_strategy =
      { strategy := "HoldPosition",
        action := "All strategies exhausted. Recommend manual review of career positioning.",
        confidence := 25/100 } := by
  have h := claim_C6_re_evaluation c6_session (failed_record "HoldPosition")
    all_strong_report rfl rfl
  exact h.2.2.2.2.2.2.1 (by decide)

/-! ### Claim C9 -/

/-- Successful outcome recording keeps the record's state and never
clears the failed flag. -/
lemma record_outcome_ok_shape (session : AgentSession) (o : String)
    (r : StrategyRecord) (h : session.current_strategy = some r)
    (hv : o = "no_response" ∨ o = "rejected" ∨ o = "interview") :
    ∃ s1 r1, record_outcome session o = Except.ok s1 ∧
      s1.current_strategy = some r1 ∧
      r1.strategy_state = r.strategy_state ∧
      (r.failed = true → r1.failed = true) := by
  unfold record_outcome
  rw [if_neg (not_not_intro hv), h]
  dsimp only
  split
  · exact ⟨_, _, rfl, rfl, rfl, fun _ => rfl⟩
  · exact ⟨_, _, rfl, rfl, rfl, fun hrf => hrf⟩

/-- State evaluation keeps a current record present and only reaches
RECONSIDER either by setting the failed flag or by having started
there. -/
lemma evaluate_state_shape (s : AgentSession) (ps : Option ProfileSignals)
    (r1 : StrategyRecord) (h : s.current_strategy = some r1) :
    ∃ r2, (evaluate_strategy_state s ps).current_strategy = some r2 ∧
      (evaluate_strategy_state s ps).strategy_history = s.strategy_history ∧
      (r2.strategy_state = StrategyState.reconsider →
        r2.failed = true ∨
        (r1.strategy_state = StrategyState.reconsider ∧
          r2.failed = r1.failed)) := by
  unfold evaluate_strategy_state
  rw [h]
  dsimp only
  repeat' split
  all_goals
    first
      | exact ⟨r1, h, rfl, fun hrc => Or.inr ⟨hrc, rfl⟩⟩
      | (refine ⟨_, rfl, rfl, fun hrc => Or.inl ?_⟩; simp; done)
      | (refine ⟨_, rfl, rfl, fun hrc => absurd hrc ?_⟩; decide; done)
      | (simp_all; done)

/-- Re-evaluation of a failed record replaces it by a fresh unfailed
EXPLORE record and appends the failed record to the history. -/
lemma re_evaluate_shape (new2 : Report) (s : AgentSession)
    (rm : StrategyRecord) (h : s.current_strategy = some rm)
    (hf : rm.failed = true) :
    ∃ r', (re_evaluate_strategy new2 s).current_strategy = some r' ∧
      r'.strategy_state = StrategyState.explore ∧ r'.failed = false ∧
      (re_evaluate_strategy new2 s).strategy_history =
        s.strategy_history ++ [rm] := by
  unfold re_evaluate_strategy
  rw [h]
  dsimp only
  rw [if_neg (by simp [hf])]
  exact ⟨_, rfl, rfl, rfl, rfl⟩

/-- C9: a full outcome-processing step on a session whose record
satisfies the engine invariant (RECONSIDER implies failed, true of
every record the engine creates) never ends with the current record in
RECONSIDER: whenever evaluation leaves the record in RECONSIDER, the
same step installs a brand-new EXPLORE record with a cleared failed
flag and archives the replaced record into the history. -/
theorem claim_C9_no_reconsider_after_step (session : AgentSession)
    (r : StrategyRecord) (outcome : String) (ps : Option ProfileSignals)
    (new_stage2 : Report)
    (h : session.current_strategy = some r)
    (hinv : r.strategy_state = StrategyState.reconsider → r.failed = true)
    (hv : outcome = "no_response" ∨ outcome = "rejected" ∨
      outcome = "interview") :
    ∃ res, process_outcome session outcome ps new_stage2 = Except.ok res ∧
      ∃ r', res.session.current_strategy = some r' ∧
        r'.strategy_state ≠ StrategyState.reconsider ∧
        (∀ s1, record_outcome session outcome = Except.ok s1 →
          ∀ rm, (evaluate_strategy_state s1 ps).current_strategy = some rm →
          rm.strategy_state = StrategyState.reconsider →
          r'.strategy_state = StrategyState.explore ∧ r'.failed = false ∧
          res.session.strategy_history =
            (evaluate_strategy_state s1 ps).strategy_history ++ [rm]) := by
  obtain ⟨s1, r1, hok, hs1, hstate1, hfail1⟩ :=
    record_outcome_ok_shape session outcome r h hv
  obtain ⟨r2, hr2, hhist2, hrc2⟩ := evaluate_state_shape s1 ps r1 hs1
  unfold process_outcome
  rw [hok]
  dsimp only
  rw [hr2]
  dsimp only
  by_cases hrc : r2.strategy_state = StrategyState.reconsider
  · rw [if_pos hrc]
    have hf2 : r2.failed = true := by
      rcases hrc2 hrc with hf | ⟨hrec1, heq⟩
      · exact hf
      · rw [heq]
        exact hfail1 (hinv (hstate1.symm ▸ hrec1))
    obtain ⟨r3, hr3, hx3, hf3, hh3⟩ :=
      re_evaluate_shape new_stage2 (evaluate_strategy_state s1 ps) r2 hr2 hf2
    refine ⟨_, rfl, r3, hr3, by rw [hx3]; decide, ?_⟩
    intro s1' hok' rm hrm hrmrc
    cases hok'
    rw [hr2] at hrm
    cases hrm
    exact ⟨hx3, hf3, hh3⟩
  · rw [if_neg hrc]
    refine ⟨_, rfl, r2, hr2, hrc, ?_⟩
    intro s1' hok' rm hrm hrmrc
    cases hok'
    rw [hr2] at hrm
    cases hrm
    exact absurd hrmrc hrc

/-- Witness for C9 on the fresh EXPLORE session and an "interview"
outcome: the step succeeds and the resulting record is not in
RECONSIDER. -/
theorem claim_C9_no_reconsider_after_step_witness :
    ∃ res, process_outcome explore_session "interview" none
        all_strong_report = Except.ok res ∧
      ∃ r', res.session.current_strategy = some r' ∧
        r'.strategy_state ≠ StrategyState.reconsider ∧
        (∀ s1, record_outcome explore_session "interview" = Except.ok s1 →
          ∀ rm, (evaluate_strategy_state s1 none).current_strategy =
            some rm →
          rm.strategy_state = StrategyState.reconsider →
          r'.strategy_state = StrategyState.explore ∧ r'.failed = false ∧
          res.session.strategy_history =
            (evaluate_strategy_state s1 none).strategy_history ++ [rm]) :=
  claim_C9_no_reconsider_after_step explore_session explore_record
    "interview" none all_strong_report rfl (by decide) (by decide)

end CareerGap
